import Mathlib

/-!
Verification of the evidently excerpt: the stat-test registry
(`src/evidently/analyzers/stattests/registry.py`) and the trigger-word
feature (`src/evidently/features/trigger_words_present_feature.py`),
shallowly embedded in Lean 4.

Python dictionaries are modelled as insertion-ordered association lists
(`dinsert` updates in place, `dlookup` finds the unique binding, `dkeys`
lists keys in insertion order), matching CPython dict semantics for the
operations the source uses.  A Python callable is modelled by its identity
(`id`) together with its `__name__`.  A `pandas.Series` appearing as
`reference_data` / `current_data` is a `List α` of hashable labels.
-/

section PyDict

variable {α β : Type} [DecidableEq α]

/-- `d[k] = v` on a Python dict: update in place when `k` is present,
append otherwise (insertion order preserved). -/
def dinsert (k : α) (v : β) : List (α × β) → List (α × β)
  | [] => [(k, v)]
  | (k', v') :: rest => if k = k' then (k, v) :: rest else (k', v') :: dinsert k v rest

/-- `d.get(k)` on a Python dict. -/
def dlookup (k : α) : List (α × β) → Option β
  | [] => none
  | (k', v') :: rest => if k = k' then some v' else dlookup k rest

/-- `list(d.keys())` on a Python dict. -/
def dkeys (d : List (α × β)) : List α := d.map Prod.fst

theorem dlookup_dinsert (k k' : α) (v : β) (d : List (α × β)) :
    dlookup k (dinsert k' v d) = if k = k' then some v else dlookup k d := by
  induction d with
  | nil => simp [dinsert, dlookup]
  | cons p rest ih =>
    obtain ⟨ka, va⟩ := p
    by_cases h1 : k' = ka
    · subst h1
      by_cases h2 : k = k' <;> simp [dinsert, dlookup, h2]
    · by_cases h2 : k = ka
      · subst h2
        have h3 : ¬ k = k' := fun h => h1 h.symm
        simp [dinsert, dlookup, h1, h3]
      · simp [dinsert, dlookup, h1, h2, ih]

theorem dlookup_mem {k : α} {v : β} {d : List (α × β)} (h : dlookup k d = some v) :
    (k, v) ∈ d := by
  induction d with
  | nil => simp [dlookup] at h
  | cons p rest ih =>
    obtain ⟨ka, va⟩ := p
    by_cases h2 : k = ka
    · subst h2
      simp [dlookup] at h
      simp [h]
    · simp [dlookup, h2] at h
      exact List.mem_cons_of_mem _ (ih h)

end PyDict

/-- A Python callable, identified (as Python dict keys identify functions)
by object identity, and carrying its `__name__` attribute. -/
structure PyCallable where
  id : Nat
  name : String
deriving DecidableEq, Repr

/-- `@dataclasses.dataclass class StatTest` from `registry.py`. -/
structure StatTest where
  name : String
  display_name : String
  func : PyCallable
  allowed_feature_types : List String
deriving DecidableEq, Repr

/-- The selector argument `stattest_func : Optional[PossibleStatTestType]`,
one runtime case per branch of `get_stattest`'s type dispatch; `other`
stands for a value of any further runtime type (its type name is kept for
the error message). -/
inductive PossibleStatTest where
  | str (s : String)
  | func (f : PyCallable)
  | test (t : StatTest)
  | other (typeName : String)
deriving DecidableEq, Repr

/-- The module-level registry state: `_registered_stat_tests` (forward map
name → feature type → StatTest) and `_registered_stat_test_funcs`
(reverse map func identity → name). -/
structure RegistryState where
  stat_tests : List (String × List (String × StatTest))
  stat_test_funcs : List (PyCallable × String)
deriving DecidableEq, Repr

/-- The state before any registration: both module dicts empty. -/
def emptyRegistry : RegistryState := ⟨[], []⟩

/-- The dict comprehension of registry.py line 27:
a fresh dict with one entry per element of `allowed_feature_types`,
every value the test itself. -/
def mkInner (stat_test : StatTest) : List (String × StatTest) :=
  stat_test.allowed_feature_types.foldl (fun d ft => dinsert ft stat_test d) []

/-- `register_stattest(stat_test)`:
`_registered_stat_tests[stat_test.name] = \x7bft: stat_test for ft in stat_test.allowed_feature_types\x7d`
and `_registered_stat_test_funcs[stat_test.func] = stat_test.name`. -/
def register_stattest (stat_test : StatTest) (s : RegistryState) : RegistryState :=
  { stat_tests := dinsert stat_test.name (mkInner stat_test) s.stat_tests
    stat_test_funcs := dinsert stat_test.func stat_test.name s.stat_test_funcs }

/-- A sequence of `register_stattest` calls applied in order. -/
def applyRegs (regs : List StatTest) (s : RegistryState) : RegistryState :=
  regs.foldl (fun s t => register_stattest t s) s

/-- The exceptions `get_stattest` can raise: plain `ValueError` with its
message, and the two subclasses, which carry the data their messages
enumerate (the currently registered names, resp. the feature types valid
for the name). -/
inductive StatTestError where
  | valueError (msg : String)
  | statTestNotFoundError (stattest_name : String) (available_stattests : List String)
  | statTestInvalidFeatureTypeError (stattest_name : String) (feature_type : String)
      (available_feature_types : List String)
deriving DecidableEq, Repr

/-- Modelled from the spec: the Kolmogorov-Smirnov test definition supplied by
`evidently.analyzers.stattests` (module not part of the excerpt); only its
identity matters here. -/
def ks_stat_test : StatTest :=
  ⟨"ks", "K-S p_value", ⟨101, "ks_stat_test"⟩, ["num"]⟩

/-- Modelled from the spec: the Chi-squared test definition supplied by
`evidently.analyzers.stattests` (module not part of the excerpt). -/
def chi_stat_test : StatTest :=
  ⟨"chisquare", "chi-square p_value", ⟨102, "chi_stat_test"⟩, ["cat"]⟩

/-- Modelled from the spec: the Z-test definition supplied by
`evidently.analyzers.stattests` (module not part of the excerpt). -/
def z_stat_test : StatTest :=
  ⟨"z", "Z-test p_value", ⟨103, "z_stat_test"⟩, ["cat"]⟩

/-- `len(set(reference_data) | set(current_data))` in
`_get_default_stattest`. -/
def labelsCount {α : Type} [DecidableEq α] (reference_data current_data : List α) : Nat :=
  ((reference_data ++ current_data).dedup).length

/-- `_get_default_stattest(reference_data, current_data, feature_type)`. -/
def _get_default_stattest {α : Type} [DecidableEq α]
    (reference_data current_data : List α) (feature_type : String) :
    Except StatTestError StatTest :=
  if feature_type = "num" then .ok ks_stat_test
  else if feature_type = "cat" then
    if labelsCount reference_data current_data > 2 then .ok chi_stat_test
    else .ok z_stat_test
  else .error (.valueError ("Unexpected feature_type " ++ feature_type))

/-- The tail of `get_stattest` shared by the string and
registered-callable branches: forward-map lookup of `stattest_name`, then
of `feature_type`, raising the two dedicated errors. -/
def lookupRegistered (stattest_name feature_type : String) (s : RegistryState) :
    Except StatTestError StatTest :=
  match dlookup stattest_name s.stat_tests with
  | none => .error (.statTestNotFoundError stattest_name (dkeys s.stat_tests))
  | some funcs =>
    match dlookup feature_type funcs with
    | none => .error (.statTestInvalidFeatureTypeError stattest_name feature_type (dkeys funcs))
    | some func => .ok func

/-- `get_stattest(reference_data, current_data, feature_type, stattest_func)`,
reading the module dicts from `s`. -/
def get_stattest {α : Type} [DecidableEq α] (reference_data current_data : List α)
    (feature_type : String) (stattest_func : Option PossibleStatTest)
    (s : RegistryState) : Except StatTestError StatTest :=
  match stattest_func with
  | none => _get_default_stattest reference_data current_data feature_type
  | some (.test t) => .ok t
  | some (.func f) =>
    match dlookup f s.stat_test_funcs with
    | none =>
      .ok { name := ""
            display_name := "custom function \x27" ++ f.name ++ "\x27"
            func := f
            allowed_feature_types := [] }
    | some stattest_name => lookupRegistered stattest_name feature_type s
  | some (.str stattest_name) => lookupRegistered stattest_name feature_type s
  | some (.other typeName) =>
    .error (.valueError ("Unexpected type of stattest argument (" ++ typeName
      ++ "), expected: str or Callable"))

/-! ## Trigger-word feature (`trigger_words_present_feature.py`) -/

/-- Is `c` inside the character class `[A-Za-z0-9 ]`? -/
def keptChar (c : Char) : Bool :=
  (('A' ≤ c && c ≤ 'Z') || ('a' ≤ c && c ≤ 'z') || ('0' ≤ c && c ≤ '9') || c = ' ')

/-- `re.sub("[^A-Za-z0-9 ]+", "", s)`: delete every character outside
`[A-Za-z0-9 ]`. -/
def reSubNonAlnum (s : String) : String :=
  String.mk (s.toList.filter keptChar)

/-- Python `str.lower()`; after `reSubNonAlnum` only ASCII remains, where
per-character lowering coincides with Python. -/
def pyLower (s : String) : String :=
  String.mk (s.toList.map Char.toLower)

/-- Accumulator loop behind `pySplit`: `acc` holds the characters of the
current token in reverse. -/
def pySplitAux : List Char → List Char → List String
  | [], [] => []
  | [], acc => [String.mk acc.reverse]
  | c :: rest, acc =>
    if c = ' ' then
      match acc with
      | [] => pySplitAux rest []
      | _ => String.mk acc.reverse :: pySplitAux rest []
    else pySplitAux rest (c :: acc)

/-- Python `str.split()` with no argument on a string whose only
whitespace is the space character (the only whitespace `reSubNonAlnum`
keeps): split on runs of spaces, no empty tokens. -/
def pySplit (s : String) : List String :=
  pySplitAux s.toList []

/-- The loop body of `listed_words_present`: scan the token list, return 1
at the first token whose lowercased (and, when `lemmatisize`, lemmatized)
form is in `words_list`, else 0. -/
def scanWords (lem : String → String) (words_list : List String) (lemmatisize : Bool) :
    List String → Nat
  | [] => 0
  | w :: rest =>
    let word := if lemmatisize then lem (pyLower w) else (pyLower w)
    if words_list.contains word then 1 else
      scanWords lem words_list lemmatisize rest

/-- `listed_words_present(s, words_list, lemmatisize)` from
`TriggerWordsPresent.generate_feature`; `lem` stands for the shared
`WordNetLemmatizer` instance's `lemmatize` method (external nltk
collaborator, kept abstract). -/
def listed_words_present (lem : String → String) (s : Option String)
    (words_list : List String) (lemmatisize : Bool) : Nat :=
  match s with
  | none => 0
  | some s => scanWords lem words_list lemmatisize (pySplit (reSubNonAlnum s))

/-- A `pandas.DataFrame` with cells of type `β`: named columns in order,
each a list of cell values. -/
structure PyDataFrame (β : Type) where
  cols : List (String × List β)
deriving DecidableEq, Repr

/-- The configuration of a `TriggerWordsPresent` feature: the fields set
by `__init__`, with `self.lem` the abstract lemmatize method. -/
structure TriggerWordsPresent where
  lem : String → String
  column_name : String
  words_list : List String
  lemmatisize : Bool

/-- `TriggerWordsPresent.generate_feature(data, data_definition)`: apply
`listed_words_present` to each cell of column `column_name` and return a
one-column DataFrame under the same name (`none` models the `KeyError`
pandas raises when the column is missing; `data_definition` is unused by
the source and omitted). -/
def TriggerWordsPresent.generate_feature (self : TriggerWordsPresent)
    (data : PyDataFrame (Option String)) : Option (PyDataFrame Nat) :=
  match dlookup self.column_name data.cols with
  | none => none
  | some col =>
    some ⟨[(self.column_name,
            col.map (fun x => listed_words_present self.lem x self.words_list self.lemmatisize))]⟩

/-! ## Helper lemmas -/

theorem dlookup_foldl_dinsert_const (T : StatTest) (l : List String)
    (d : List (String × StatTest)) (t : String) :
    dlookup t (l.foldl (fun d ft => dinsert ft T d) d) =
      if t ∈ l then some T else dlookup t d := by
  induction l generalizing d with
  | nil => simp
  | cons ft rest ih =>
    simp only [List.foldl_cons]
    rw [ih]
    by_cases h : t ∈ rest
    · simp [h]
    · by_cases h2 : t = ft
      · subst h2
        simp [h, dlookup_dinsert]
      · simp [h, h2, dlookup_dinsert]

theorem dlookup_mkInner (T : StatTest) (t : String) :
    dlookup t (mkInner T) =
      if t ∈ T.allowed_feature_types then some T else none := by
  unfold mkInner
  rw [dlookup_foldl_dinsert_const]
  simp [dlookup]

theorem applyRegs_stat_tests_ne (regs : List StatTest) (s : RegistryState) (n : String)
    (h : ∀ T' ∈ regs, T'.name ≠ n) :
    dlookup n (applyRegs regs s).stat_tests = dlookup n s.stat_tests := by
  induction regs generalizing s with
  | nil => rfl
  | cons T rest ih =>
    have hT : T.name ≠ n := h T (List.mem_cons_self T rest)
    have hrest : ∀ T' ∈ rest, T'.name ≠ n := fun T' hm => h T' (List.mem_cons_of_mem T hm)
    rw [show applyRegs (T :: rest) s = applyRegs rest (register_stattest T s) from rfl,
      ih (register_stattest T s) hrest]
    have hn : ¬ n = T.name := fun he => hT he.symm
    simp [register_stattest, dlookup_dinsert, hn]

theorem scanWords_eq_any (lem : String → String) (words_list : List String)
    (lemmatisize : Bool) (ws : List String) :
    scanWords lem words_list lemmatisize ws =
      if ws.any (fun w =>
          words_list.contains (if lemmatisize then lem (pyLower w) else (pyLower w)))
        then 1 else 0 := by
  induction ws with
  | nil => simp [scanWords]
  | cons w rest ih =>
    by_cases h : (if lemmatisize then lem (pyLower w) else (pyLower w)) ∈ words_list <;>
      simp [scanWords, ih, h]

theorem scanWords_zero_or_one (lem : String → String) (words_list : List String)
    (lemmatisize : Bool) (ws : List String) :
    scanWords lem words_list lemmatisize ws = 0 ∨
      scanWords lem words_list lemmatisize ws = 1 := by
  rw [scanWords_eq_any]
  cases h : ws.any (fun w =>
      words_list.contains (if lemmatisize then lem (pyLower w) else (pyLower w))) <;> simp [h]

/-! ## Claim theorems -/

/-- C1: with an absent selector, `get_stattest` follows the default-selection
policy: feature type "num" yields the Kolmogorov-Smirnov test; "cat" yields
the Chi-squared test when reference and current together hold more than 2
distinct labels and the Z-test otherwise; any other feature type raises the
`ValueError` over the unexpected feature type. -/
theorem default_selection_policy {α : Type} [DecidableEq α]
    (reference_data current_data : List α) (feature_type : String) (s : RegistryState) :
    get_stattest reference_data current_data "num" none s = .ok ks_stat_test
    ∧ (2 < labelsCount reference_data current_data →
        get_stattest reference_data current_data "cat" none s = .ok chi_stat_test)
    ∧ (labelsCount reference_data current_data ≤ 2 →
        get_stattest reference_data current_data "cat" none s = .ok z_stat_test)
    ∧ (feature_type ≠ "num" → feature_type ≠ "cat" →
        get_stattest reference_data current_data feature_type none s =
          .error (.valueError ("Unexpected feature_type " ++ feature_type))) := by
  refine ⟨rfl, fun h => ?_, fun h => ?_, fun h1 h2 => ?_⟩
  · simp [get_stattest, _get_default_stattest, h]
  · simp [get_stattest, _get_default_stattest, Nat.not_lt.mpr h]
  · simp [get_stattest, _get_default_stattest, h1, h2]

/-- Witness for `default_selection_policy` at concrete series. -/
theorem default_selection_policy_witness :
    get_stattest [0, 1] [2] "num" none emptyRegistry = .ok ks_stat_test
    ∧ get_stattest [0, 1] [2] "cat" none emptyRegistry = .ok chi_stat_test
    ∧ get_stattest [(0 : Nat)] [0, 1] "cat" none emptyRegistry = .ok z_stat_test
    ∧ get_stattest [(0 : Nat)] [] "datetime" none emptyRegistry =
        .error (.valueError ("Unexpected feature_type " ++ "datetime")) :=
  ⟨(default_selection_policy [0, 1] [2] "num" emptyRegistry).1,
   (default_selection_policy [0, 1] [2] "cat" emptyRegistry).2.1 (by decide),
   (default_selection_policy [(0 : Nat)] [0, 1] "cat" emptyRegistry).2.2.1 (by decide),
   (default_selection_policy [(0 : Nat)] [] "datetime" emptyRegistry).2.2.2
     (by decide) (by decide)⟩

/-- C4: a callable selector whose identity is not in the reverse map is
returned wrapped ad hoc, for every feature type: empty name, display name
`custom function '<callable name>'`, the callable itself as `func`, and an
empty `allowed_feature_types`, with no error raised. -/
theorem adhoc_callable_wrapped {α : Type} [DecidableEq α]
    (reference_data current_data : List α) (feature_type : String)
    (s : RegistryState) (f : PyCallable)
    (h : dlookup f s.stat_test_funcs = none) :
    get_stattest reference_data current_data feature_type (some (.func f)) s =
      .ok ⟨"", "custom function \x27" ++ f.name ++ "\x27", f, []⟩ := by
  simp [get_stattest, h]

/-- Witness for `adhoc_callable_wrapped`: an unregistered callable on a
nonempty registry, under a feature type it was never associated with. -/
theorem adhoc_callable_wrapped_witness :
    dlookup ⟨7, "my_metric"⟩
        (register_stattest ks_stat_test emptyRegistry).stat_test_funcs = none
    ∧ get_stattest ([] : List Nat) [] "cat" (some (.func ⟨7, "my_metric"⟩))
        (register_stattest ks_stat_test emptyRegistry) =
      .ok ⟨"", "custom function \x27" ++ "my_metric" ++ "\x27", ⟨7, "my_metric"⟩, []⟩ :=
  ⟨by decide,
   adhoc_callable_wrapped ([] : List Nat) [] "cat"
     (register_stattest ks_stat_test emptyRegistry) ⟨7, "my_metric"⟩ (by decide)⟩

/-- C3: for a selector that resolves to a name (a string, or a callable
found in the reverse map), `get_stattest` fails with
`StatTestNotFoundError` exactly when the name is absent from the forward
map, carrying all currently registered names; it fails with
`StatTestInvalidFeatureTypeError` exactly when the name is present but the
feature type is absent from its per-type mapping, carrying the feature
types valid for that name; and a selector of any other runtime type fails
with the `ValueError` naming the unexpected type. -/
theorem name_resolution_error_behaviour {α : Type} [DecidableEq α]
    (reference_data current_data : List α) (s : RegistryState)
    (stattest_name feature_type : String) :
    (get_stattest reference_data current_data feature_type
        (some (.str stattest_name)) s =
        .error (.statTestNotFoundError stattest_name (dkeys s.stat_tests))
      ↔ dlookup stattest_name s.stat_tests = none)
    ∧ (∀ funcs, dlookup stattest_name s.stat_tests = some funcs →
        (get_stattest reference_data current_data feature_type
            (some (.str stattest_name)) s =
            .error (.statTestInvalidFeatureTypeError stattest_name feature_type
              (dkeys funcs))
          ↔ dlookup feature_type funcs = none))
    ∧ (∀ f, dlookup f s.stat_test_funcs = some stattest_name →
        get_stattest reference_data current_data feature_type (some (.func f)) s =
          get_stattest reference_data current_data feature_type
            (some (.str stattest_name)) s)
    ∧ (∀ typeName, get_stattest reference_data current_data feature_type
        (some (.other typeName)) s =
        .error (.valueError ("Unexpected type of stattest argument (" ++ typeName
          ++ "), expected: str or Callable"))) := by
  refine ⟨?_, fun funcs hfuncs => ?_, fun f hf => ?_, fun typeName => rfl⟩
  · cases hl : dlookup stattest_name s.stat_tests with
    | none => simp [get_stattest, lookupRegistered, hl]
    | some funcs =>
      cases hft : dlookup feature_type funcs with
      | none => simp [get_stattest, lookupRegistered, hl, hft]
      | some func => simp [get_stattest, lookupRegistered, hl, hft]
  · cases hft : dlookup feature_type funcs with
    | none => simp [get_stattest, lookupRegistered, hfuncs, hft]
    | some func => simp [get_stattest, lookupRegistered, hfuncs, hft]
  · simp [get_stattest, hf]

/-- Witness for `name_resolution_error_behaviour`: each error mode on the
registry holding only the Kolmogorov-Smirnov test. -/
theorem name_resolution_error_behaviour_witness :
    get_stattest ([] : List Nat) [] "num" (some (.str "zzz"))
        (register_stattest ks_stat_test emptyRegistry) =
      .error (.statTestNotFoundError "zzz" ["ks"])
    ∧ get_stattest ([] : List Nat) [] "cat" (some (.str "ks"))
        (register_stattest ks_stat_test emptyRegistry) =
      .error (.statTestInvalidFeatureTypeError "ks" "cat" ["num"])
    ∧ get_stattest ([] : List Nat) [] "cat" (some (.func ⟨101, "ks_stat_test"⟩))
        (register_stattest ks_stat_test emptyRegistry) =
      get_stattest ([] : List Nat) [] "cat" (some (.str "ks"))
        (register_stattest ks_stat_test emptyRegistry)
    ∧ get_stattest ([] : List Nat) [] "num" (some (.other "int"))
        (register_stattest ks_stat_test emptyRegistry) =
      .error (.valueError ("Unexpected type of stattest argument (" ++ "int"
        ++ "), expected: str or Callable")) :=
  ⟨(name_resolution_error_behaviour ([] : List Nat) []
      (register_stattest ks_stat_test emptyRegistry) "zzz" "num").1.mpr (by decide),
   ((name_resolution_error_behaviour ([] : List Nat) []
      (register_stattest ks_stat_test emptyRegistry) "ks" "cat").2.1
      [("num", ks_stat_test)] (by decide)).mpr (by decide),
   (name_resolution_error_behaviour ([] : List Nat) []
      (register_stattest ks_stat_test emptyRegistry) "ks" "cat").2.2.1
      ⟨101, "ks_stat_test"⟩ (by decide),
   (name_resolution_error_behaviour ([] : List Nat) []
      (register_stattest ks_stat_test emptyRegistry) "zzz" "num").2.2.2 "int"⟩

/-- C2: a test registered and not superseded by a later registration under
the same name resolves by its own name, for every feature type in its
`allowed_feature_types`, to exactly itself. -/
theorem resolve_registered_by_name {α : Type} [DecidableEq α]
    (reference_data current_data : List α) (s : RegistryState)
    (post : List StatTest) (T : StatTest) (t : String)
    (hpost : ∀ T' ∈ post, T'.name ≠ T.name)
    (ht : t ∈ T.allowed_feature_types) :
    get_stattest reference_data current_data t (some (.str T.name))
      (applyRegs post (register_stattest T s)) = .ok T := by
  have hfwd : dlookup T.name (applyRegs post (register_stattest T s)).stat_tests =
      some (mkInner T) := by
    rw [applyRegs_stat_tests_ne post _ T.name hpost]
    simp [register_stattest, dlookup_dinsert]
  have hinner : dlookup t (mkInner T) = some T := by
    rw [dlookup_mkInner]
    simp [ht]
  simp [get_stattest, lookupRegistered, hfwd, hinner]

/-- Witness for `resolve_registered_by_name`: the Kolmogorov-Smirnov test,
registered and then followed by an unrelated registration, resolves by
name "ks" at feature type "num" to itself. -/
theorem resolve_registered_by_name_witness :
    get_stattest ([] : List Nat) [] "num" (some (.str "ks"))
      (applyRegs [chi_stat_test] (register_stattest ks_stat_test emptyRegistry)) =
      .ok ks_stat_test :=
  resolve_registered_by_name ([] : List Nat) [] emptyRegistry
    [chi_stat_test] ks_stat_test "num" (by decide) (by decide)

/-- C10: registering a test with an empty `allowed_feature_types` still
enters its name into the forward map with an empty per-type mapping, so
any later resolve by that name (no intervening registration reusing the
name) fails with `StatTestInvalidFeatureTypeError` carrying the empty list
of valid feature types — never with `StatTestNotFoundError` — for every
feature type. -/
theorem empty_types_registration_invalid_feature_type {α : Type} [DecidableEq α]
    (reference_data current_data : List α) (s : RegistryState)
    (post : List StatTest) (T : StatTest) (feature_type : String)
    (hT : T.allowed_feature_types = [])
    (hpost : ∀ T' ∈ post, T'.name ≠ T.name) :
    get_stattest reference_data current_data feature_type (some (.str T.name))
      (applyRegs post (register_stattest T s)) =
      .error (.statTestInvalidFeatureTypeError T.name feature_type []) := by
  have hfwd : dlookup T.name (applyRegs post (register_stattest T s)).stat_tests =
      some (mkInner T) := by
    rw [applyRegs_stat_tests_ne post _ T.name hpost]
    simp [register_stattest, dlookup_dinsert]
  have hmk : mkInner T = [] := by
    unfold mkInner
    rw [hT]
    rfl
  rw [hmk] at hfwd
  simp [get_stattest, lookupRegistered, hfwd, dlookup, dkeys]

/-- Witness for `empty_types_registration_invalid_feature_type`: a test
named "ghost" registered with no feature types, then another registration,
then a resolve at feature type "num". -/
theorem empty_types_registration_witness :
    get_stattest ([] : List Nat) [] "num" (some (.str "ghost"))
      (applyRegs [ks_stat_test]
        (register_stattest ⟨"ghost", "ghost test", ⟨9, "ghost_func"⟩, []⟩
          emptyRegistry)) =
      .error (.statTestInvalidFeatureTypeError "ghost" "num" []) :=
  empty_types_registration_invalid_feature_type ([] : List Nat) [] emptyRegistry
    [ks_stat_test] ⟨"ghost", "ghost test", ⟨9, "ghost_func"⟩, []⟩ "num"
    (by decide) (by decide)

/-- C5 counterexample: registering a test under the name "x" for types
"num" and "cat", then re-registering under "x" for type "num" only,
removes the prior forward-map entry for ("x", "cat") instead of leaving it
unchanged as the claim states. -/
theorem register_frame_counterexample :
    (dlookup "x" (register_stattest ⟨"x", "d1", ⟨1, "f1"⟩, ["num", "cat"]⟩
        emptyRegistry).stat_tests).bind (dlookup "cat") =
      some ⟨"x", "d1", ⟨1, "f1"⟩, ["num", "cat"]⟩
    ∧ (dlookup "x" (register_stattest ⟨"x", "d2", ⟨2, "f2"⟩, ["num"]⟩
        (register_stattest ⟨"x", "d1", ⟨1, "f1"⟩, ["num", "cat"]⟩
          emptyRegistry)).stat_tests).bind (dlookup "cat") = none :=
  ⟨rfl, rfl⟩

/-- C5 amended: `register_stattest` replaces the entire per-type mapping
stored under `test.name` with the fresh comprehension over
`test.allowed_feature_types` — entries for feature types previously
registered under that name but not re-listed are removed, not kept — and
leaves the forward-map entries of every other name unchanged. -/
theorem register_replaces_per_name_map (s : RegistryState) (T : StatTest) :
    dlookup T.name (register_stattest T s).stat_tests = some (mkInner T)
    ∧ (∀ t, dlookup t (mkInner T) =
        if t ∈ T.allowed_feature_types then some T else none)
    ∧ (∀ n, n ≠ T.name →
        dlookup n (register_stattest T s).stat_tests = dlookup n s.stat_tests) := by
  refine ⟨?_, dlookup_mkInner T, fun n hn => ?_⟩
  · simp [register_stattest, dlookup_dinsert]
  · simp [register_stattest, dlookup_dinsert, hn]

/-- Witness for `register_replaces_per_name_map` at the counterexample's
second registration, checking the replaced "x" entry, the absent "cat" key
and the untouched unrelated name "ks". -/
theorem register_replaces_per_name_map_witness :
    dlookup "x" (register_stattest ⟨"x", "d2", ⟨2, "f2"⟩, ["num"]⟩
        (register_stattest ks_stat_test emptyRegistry)).stat_tests =
      some (mkInner ⟨"x", "d2", ⟨2, "f2"⟩, ["num"]⟩)
    ∧ dlookup "cat" (mkInner ⟨"x", "d2", ⟨2, "f2"⟩, ["num"]⟩) =
        (if "cat" ∈ ["num"] then some (⟨"x", "d2", ⟨2, "f2"⟩, ["num"]⟩ : StatTest)
          else none)
    ∧ dlookup "ks" (register_stattest ⟨"x", "d2", ⟨2, "f2"⟩, ["num"]⟩
        (register_stattest ks_stat_test emptyRegistry)).stat_tests =
      dlookup "ks" (register_stattest ks_stat_test emptyRegistry).stat_tests :=
  ⟨(register_replaces_per_name_map
      (register_stattest ks_stat_test emptyRegistry)
      ⟨"x", "d2", ⟨2, "f2"⟩, ["num"]⟩).1,
   (register_replaces_per_name_map
      (register_stattest ks_stat_test emptyRegistry)
      ⟨"x", "d2", ⟨2, "f2"⟩, ["num"]⟩).2.1 "cat",
   (register_replaces_per_name_map
      (register_stattest ks_stat_test emptyRegistry)
      ⟨"x", "d2", ⟨2, "f2"⟩, ["num"]⟩).2.2 "ks" (by decide)⟩

/-- The spec's registry invariant: every StatTest stored in the forward
map has its func identity mapped to exactly its own name by the reverse
map. -/
def RegInvariant (s : RegistryState) : Prop :=
  ∀ stattest_name inner feature_type T,
    dlookup stattest_name s.stat_tests = some inner →
    dlookup feature_type inner = some T →
    dlookup T.func s.stat_test_funcs = some T.name

/-- C6 counterexample: registering the same func under name "a" and then
under name "b" leaves the test stored under "a" in the forward map while
the reverse map sends its func to "b", so the invariant fails after this
register sequence. -/
theorem reverse_index_invariant_counterexample :
    ¬ RegInvariant (register_stattest ⟨"b", "db", ⟨1, "f"⟩, ["num"]⟩
        (register_stattest ⟨"a", "da", ⟨1, "f"⟩, ["num"]⟩ emptyRegistry)) := by
  intro h
  have h2 := h "a" [("num", ⟨"a", "da", ⟨1, "f"⟩, ["num"]⟩)] "num"
    ⟨"a", "da", ⟨1, "f"⟩, ["num"]⟩ (by decide) (by decide)
  exact absurd h2 (by decide)

/-- C6 amended: the reverse-index invariant holds of the empty registry
and is preserved by `register_stattest` provided no test currently stored
in the forward map carries the same func under a different name; the
unconditional claim fails (see the counterexample). -/
theorem reverse_index_invariant_preserved :
    RegInvariant emptyRegistry
    ∧ ∀ (s : RegistryState) (T : StatTest), RegInvariant s →
      (∀ stattest_name inner feature_type T',
        dlookup stattest_name s.stat_tests = some inner →
        dlookup feature_type inner = some T' →
        T'.func = T.func → T'.name = T.name) →
      RegInvariant (register_stattest T s) := by
  constructor
  · intro n inner ft T h
    simp [emptyRegistry, dlookup] at h
  · intro s T hinv hcompat n inner ft T' hn hft
    by_cases hname : n = T.name
    · subst hname
      have hinner : inner = mkInner T := by
        have := hn
        rw [show (register_stattest T s).stat_tests =
            dinsert T.name (mkInner T) s.stat_tests from rfl,
          dlookup_dinsert] at this
        simp at this
        exact this.symm
      subst hinner
      have hT' : T' = T := by
        rw [dlookup_mkInner] at hft
        by_cases hm : ft ∈ T.allowed_feature_types
        · simp [hm] at hft
          exact hft.symm
        · simp [hm] at hft
      rw [hT']
      rw [show (register_stattest T s).stat_test_funcs =
          dinsert T.func T.name s.stat_test_funcs from rfl, dlookup_dinsert]
      simp
    · have hold : dlookup n s.stat_tests = some inner := by
        have := hn
        rw [show (register_stattest T s).stat_tests =
            dinsert T.name (mkInner T) s.stat_tests from rfl,
          dlookup_dinsert] at this
        simpa [hname] using this
      have hrev := hinv n inner ft T' hold hft
      rw [show (register_stattest T s).stat_test_funcs =
          dinsert T.func T.name s.stat_test_funcs from rfl, dlookup_dinsert]
      by_cases hfe : T'.func = T.func
      · rw [if_pos hfe, hcompat n inner ft T' hold hft hfe]
      · rw [if_neg hfe]
        exact hrev

/-- Witness for `reverse_index_invariant_preserved`: one compatible
registration on the empty registry, checked at the stored entry. -/
theorem reverse_index_invariant_preserved_witness :
    dlookup (⟨101, "ks_stat_test"⟩ : PyCallable)
      (register_stattest ks_stat_test emptyRegistry).stat_test_funcs = some "ks" :=
  reverse_index_invariant_preserved.2 emptyRegistry ks_stat_test
    reverse_index_invariant_preserved.1
    (by
      intro n inner ft T' h
      simp [emptyRegistry, dlookup] at h)
    "ks" (mkInner ks_stat_test) "num" ks_stat_test (by decide) (by decide)

/-- Every per-row result is 0 or 1. -/
theorem listed_words_present_zero_or_one (lem : String → String) (x : Option String)
    (words_list : List String) (lemmatisize : Bool) :
    listed_words_present lem x words_list lemmatisize = 0 ∨
      listed_words_present lem x words_list lemmatisize = 1 := by
  cases x with
  | none => left; rfl
  | some s => exact scanWords_zero_or_one lem words_list lemmatisize _

/-- C7: the per-row computation yields 0 on an absent value; on a string it
strips every character outside `[A-Za-z0-9 ]`, splits on whitespace,
lowercases each token, lemmatizes it when `lemmatisize` is enabled, and
yields 1 exactly when some token's processed form is in `words_list`
(0 otherwise); the empty string yields 0. -/
theorem trigger_compute_characterisation (lem : String → String)
    (words_list : List String) (lemmatisize : Bool) :
    listed_words_present lem none words_list lemmatisize = 0
    ∧ (∀ s, listed_words_present lem (some s) words_list lemmatisize =
        if (pySplit (reSubNonAlnum s)).any (fun w =>
            words_list.contains (if lemmatisize then lem (pyLower w) else pyLower w))
          then 1 else 0)
    ∧ listed_words_present lem (some "") words_list lemmatisize = 0 :=
  ⟨rfl, fun s => scanWords_eq_any lem words_list lemmatisize
    (pySplit (reSubNonAlnum s)), rfl⟩

/-- C8 counterexample: lowercasing is applied to the input tokens only,
never to the `words_list` entries: the entry "run" is found in "rUN", but
the entry "Run" is not found even in the text "Run" that contains it in
its original casing — the claim demands 1 there independently of the
entry's casing. -/
theorem trigger_case_insensitive_counterexample :
    listed_words_present (fun w => w) (some "rUN") ["run"] false = 1
    ∧ listed_words_present (fun w => w) (some "Run") ["Run"] false = 0 :=
  ⟨rfl, rfl⟩

/-- C8 amended: membership is tested case-insensitively with respect to
the input text only — each token is lowercased (and lemmatized when
enabled) and then compared verbatim against the `words_list` entries: if
some token of the input processes to an entry of `words_list`, the
computation yields 1. An entry is therefore matched in any input casing
exactly when the entry equals the processed (lowercased) form. -/
theorem trigger_match_on_lowered_token (lem : String → String) (lemmatisize : Bool)
    (words_list : List String) (w s t : String)
    (hw : w ∈ words_list) (ht : t ∈ pySplit (reSubNonAlnum s))
    (hproc : (if lemmatisize then lem (pyLower t) else pyLower t) = w) :
    listed_words_present lem (some s) words_list lemmatisize = 1 := by
  have hany : (pySplit (reSubNonAlnum s)).any (fun x =>
      words_list.contains (if lemmatisize then lem (pyLower x) else pyLower x)) = true := by
    rw [List.any_eq_true]
    exact ⟨t, ht, by simp [hproc, hw]⟩
  show scanWords lem words_list lemmatisize (pySplit (reSubNonAlnum s)) = 1
  rw [scanWords_eq_any, hany]
  rfl

/-- Witness for `trigger_match_on_lowered_token`: "Run fast" matches the
lowercase entry "run". -/
theorem trigger_match_on_lowered_token_witness :
    listed_words_present (fun w => w) (some "Run fast") ["run"] false = 1 :=
  trigger_match_on_lowered_token (fun w => w) false ["run"] "run" "Run fast" "Run"
    (by decide) (by decide) (by decide)

/-- C9: when the input table has the configured column, `generate_feature`
maps the per-row computation over exactly that column and returns a table
holding that single column under the same name, of the same length, every
value 0 or 1; the other columns of the input are neither modified nor
emitted. -/
theorem generate_feature_single_column (tw : TriggerWordsPresent)
    (data : PyDataFrame (Option String)) (col : List (Option String))
    (h : dlookup tw.column_name data.cols = some col) :
    tw.generate_feature data =
      some ⟨[(tw.column_name,
        col.map (fun x => listed_words_present tw.lem x tw.words_list tw.lemmatisize))]⟩
    ∧ (col.map (fun x =>
        listed_words_present tw.lem x tw.words_list tw.lemmatisize)).length = col.length
    ∧ ∀ v ∈ col.map (fun x =>
        listed_words_present tw.lem x tw.words_list tw.lemmatisize),
        v = 0 ∨ v = 1 := by
  refine ⟨?_, List.length_map col _, ?_⟩
  · simp [TriggerWordsPresent.generate_feature, h]
  · intro v hv
    obtain ⟨x, _, rfl⟩ := List.mem_map.mp hv
    exact listed_words_present_zero_or_one tw.lem x tw.words_list tw.lemmatisize

/-- Witness for `generate_feature_single_column`: a two-column table; the
output holds only the "text" column, mapped row-wise. -/
theorem generate_feature_single_column_witness :
    TriggerWordsPresent.generate_feature ⟨fun w => w, "text", ["hi"], false⟩
      ⟨[("text", [some "Hi there", none]), ("meta", [some "x", some "y"])]⟩ =
      some ⟨[("text", [1, 0])]⟩ :=
  (generate_feature_single_column ⟨fun w => w, "text", ["hi"], false⟩
    ⟨[("text", [some "Hi there", none]), ("meta", [some "x", some "y"])]⟩
    [some "Hi there", none] (by decide)).1
